import Mathlib

/-
Verification of the adsm repository (src/app.py): a three-stage ad-strategy
generation pipeline built on a remote multimodal generation service.

The Python source is shallowly embedded below.  Pure string manipulation
(prompt templates, the markdown→docx exporter, path suffix computation) is
translated directly; effectful code (temp files, remote upload/poll, the
generation call, Streamlit session state) is modelled by explicit state
passing, with the remote service's behaviour supplied as parameters
(`Option`-valued oracles standing for success/failure of the remote calls).
-/

set_option autoImplicit false

namespace Adsm

/-! ## String helpers modelling Python built-ins

The Lean core string functions (`String.splitOn`, `String.trim`, ...) are
implemented with position loops that do not reduce well inside the kernel,
so the Python string built-ins used by `app.py` are modelled directly on
`List Char`. -/

/-- Model of Python `str.split('\n')`: split at every newline, keeping empty
pieces (`"a\n".split('\n') == ["a", ""]`). -/
def splitLines : List Char → List (List Char)
  | [] => [[]]
  | c :: cs =>
    let r := splitLines cs
    if c = '\n' then [] :: r
    else
      match r with
      | [] => [[c]]
      | l :: ls => (c :: l) :: ls

/-- Model of Python `str.strip()`: drop leading and trailing whitespace. -/
def stripChars (l : List Char) : List Char :=
  ((l.dropWhile Char.isWhitespace).reverse.dropWhile Char.isWhitespace).reverse

/-- Model of Python `str.strip()` on strings. -/
def pyStrip (s : String) : String :=
  ⟨stripChars s.data⟩

/-- Model of Python `str.replace(ab, '')` for a two-character pattern `a,b`:
scan left to right, removing every (non-overlapping) occurrence of the
two-character sequence. -/
def removePairs (a b : Char) : List Char → List Char
  | [] => []
  | [c] => [c]
  | c :: d :: rest =>
    if c = a ∧ d = b then removePairs a b rest
    else c :: removePairs a b (d :: rest)

/-- Model of Python `str.lower()` (only ASCII matters here). -/
def pyLower (s : String) : String :=
  ⟨s.data.map Char.toLower⟩

/-- Model of `pathlib.Path(name).suffix`: the last-dot extension, empty when
there is no dot, the only dot is leading, or the dot is final. -/
def pathSuffix (name : String) : String :=
  let cs := name.data
  match (cs.enum.filter fun p => p.2 = '.').getLast? with
  | none => ""
  | some iv =>
    if 0 < iv.1 ∧ iv.1 < cs.length - 1 then ⟨cs.drop iv.1⟩ else ""

/-! ## Result Exporter: `create_docx_from_markdown` (app.py lines 42-69)

The produced `docx.Document` is modelled as the list of elements added to
it: headings with their level, bulleted paragraphs, and plain paragraphs. -/

/-- One element added to the exported Word document. -/
inductive DocxItem where
  | heading (level : Nat) (text : String)
  | bullet (text : String)
  | par (text : String)
deriving DecidableEq, Repr

/-- The `'# '` heading marker. -/
def h1_marker : String := "# "

/-- The `'## '` heading marker. -/
def h2_marker : String := "## "

/-- The `'### '` heading marker. -/
def h3_marker : String := "### "

/-- The `'- '` bullet marker. -/
def dash_marker : String := "- "

/-- The `'* '` bullet marker. -/
def star_marker : String := "* "

/-- The inline cleanup of a plain paragraph line (app.py line 62):
`line.replace('**', '').replace('__', '')`. -/
def clean_inline (l : List Char) : List Char :=
  removePairs '_' '_' (removePairs '*' '*' l)

/-- The body of the exporter's per-line loop (app.py lines 47-63): strip the
line, skip it when blank, emit a heading for `#`/`##`/`###` markers, a bulleted
paragraph for `-`/`*` markers, and otherwise a plain paragraph with the `**`
and `__` markers removed. -/
def classifyLine (raw : List Char) : Option DocxItem :=
  let line := stripChars raw
  if line = [] then none
  else if h1_marker.data.isPrefixOf line then some (DocxItem.heading 1 ⟨line.drop 2⟩)
  else if h2_marker.data.isPrefixOf line then some (DocxItem.heading 2 ⟨line.drop 3⟩)
  else if h3_marker.data.isPrefixOf line then some (DocxItem.heading 3 ⟨line.drop 4⟩)
  else if dash_marker.data.isPrefixOf line || star_marker.data.isPrefixOf line then
    some (DocxItem.bullet ⟨line.drop 2⟩)
  else some (DocxItem.par ⟨clean_inline line⟩)

/-- Model of `create_docx_from_markdown` (app.py lines 42-69): the document is the list
of items produced from the markdown text, line by line. -/
def create_docx_from_markdown (markdown_text : String) : List DocxItem :=
  (splitLines markdown_text.data).filterMap classifyLine

/-! ## Prompt Composer (app.py lines 224-240, 290-302, 352-367)

Each stage prompt is an f-string; it is embedded as the concatenation of its
literal template pieces and the interpolated values. -/

/-- Literal template of `prompt_s1` before `{competitor_text}`. -/
def s1_pre : String :=
  "# Role: 資深廣告策略顧問\n請針對我提供的【競爭對手廣告資料】(包含上傳的檔案與下方文字)進行深度逆向工程分析。\n\n# 補充文字資料：\n"

/-- Literal template of `prompt_s1` after `{competitor_text}`. -/
def s1_post : String :=
  "\n\n# 任務：產出《競品素材戰略拆解報告》\n請嚴格依照以下 Markdown 架構分析：\n1. **切角分類 (Hooks & Angles)**\n2. **受眾推論 (Audience Profiling)**\n3. **視覺與素材策略 (Visual Strategy)**\n4. **文案語氣 (Tone & Manner)**\n5. **素材套路庫 (Pattern Library)**\n6. **我方戰略機會 (Strategic Gap)**\n\n請給出詳盡、專業的分析報告。\n"

/-- Stage-1 instruction text (app.py lines 224-240). -/
def prompt_s1 (competitor_text : String) : String :=
  s1_pre ++ competitor_text ++ s1_post

/-- Literal template of `prompt_s2` before `{step1_result}`. -/
def s2_pre : String := "# Context: 競品分析背景\n"

/-- Literal template of `prompt_s2` between `{step1_result}` and `{our_text}`. -/
def s2_mid : String :=
  "\n\n# Task: 差異化分析 (Gap Analysis)\n請參考上述分析，並審視我現在上傳的【我方現有素材】(檔案) 以及下方補充資訊：\n"

/-- Literal template of `prompt_s2` after `{our_text}`. -/
def s2_post : String :=
  "\n\n請進行比對並產出報告：\n1. **現況盤點**\n2. **盲區偵測 (The Gap)**\n3. **優化建議**\n4. **差異化突圍**\n"

/-- Stage-2 instruction text (app.py lines 290-302). -/
def prompt_s2 (step1_result our_text : String) : String :=
  s2_pre ++ step1_result ++ s2_mid ++ our_text ++ s2_post

/-- Literal template of `prompt_s3` before `{step1_result}`. -/
def s3_pre : String := "# Context\nStep 1: "

/-- Literal template of `prompt_s3` between `{step1_result}` and `{step2_result}`. -/
def s3_mid_a : String := "\nStep 2: "

/-- Literal template of `prompt_s3` between `{step2_result}` and `{additional_req}`. -/
def s3_mid_b : String := "\n\n# Task: 創意素材產出\n需求："

/-- Literal template of `prompt_s3` between `{additional_req}` and `{format_instruction}`. -/
def s3_mid_c : String := "。\n\n# Format\n"

/-- Literal template of `prompt_s3` after `{format_instruction}`. -/
def s3_post : String :=
  "\n\n# Requirements\n1. **廣告主訴求**\n2. **廣告素材文字**\n3. **主文案**\n4. **廣告標題**\n"

/-- Stage-3 instruction text (app.py lines 352-367). -/
def prompt_s3 (step1_result step2_result additional_req format_instruction : String) : String :=
  s3_pre ++ step1_result ++ s3_mid_a ++ step2_result ++ s3_mid_b ++ additional_req ++
    s3_mid_c ++ format_instruction ++ s3_post

/-- Stage-3 default format instruction (app.py line 344). -/
def default_format_instruction : String := "請使用標準的文字條列格式。"

/-- Stage-3 format instruction when a reference attachment was ingested
(app.py line 350). -/
def strict_format_instruction : String :=
  "🚨 **格式嚴格要求**：請嚴格模仿附件檔案的「格式排版」與「欄位架構」。"

/-! ## Attachment Ingestor: `process_uploaded_file` (app.py lines 85-137)

A caller-supplied file is a name plus an opaque payload.  The remote side is
modelled by two parameters: the outcome of `Document(path)` text extraction
(`none` = the library raised) and the terminal behaviour of the
upload-and-poll sequence (READY, FAILED, or an exception raised somewhere in
upload/poll).  Local temp files are tracked by symbolic path names so the
cleanup obligation is visible in the result. -/

/-- An uploaded file: declared name plus raw payload. -/
structure UFile where
  name : String
  bytes : String
deriving DecidableEq, Repr

/-- Terminal behaviour of the remote upload-and-poll sequence for one file:
the polled state reaches READY, reaches FAILED, or the upload/poll raises. -/
inductive RemoteTerminal where
  | ready
  | failed
  | raiseExc
deriving DecidableEq, Repr

/-- The remote handle (`genai` file object) returned on success: the display
name it was uploaded under and the payload that was uploaded. -/
structure RemoteFile where
  display_name : String
  payload : String
deriving DecidableEq, Repr

/-- Symbolic path of the first temp file (the one holding the original bytes,
app.py line 101). -/
def tmp_orig : String := "tmp_orig"

/-- Symbolic path of the second temp file (the extracted-text `.txt` file in
the docx branch, app.py line 111). -/
def tmp_txt : String := "tmp_txt"

/-- The docx filename extension. -/
def docx_suffix : String := ".docx"

/-- The `.txt` suffix appended to a converted docx display name (app.py
line 114). -/
def txt_suffix : String := ".txt"

/-- Result of one ingestion: the returned handle (`none` = the function
returned `None`), the local temp files still existing when it returns, and
the number of user-visible error messages emitted. -/
structure IngestOutcome where
  result : Option RemoteFile
  leftover_tmps : List String
  errors : Nat
deriving DecidableEq, Repr

/-- Model of `extract_text_from_docx` (app.py lines 30-40): joins the document's
paragraph texts; when the docx library raises, an error is shown and the
empty string is returned.  `parsed` is the library's outcome (`none` = it
raised). -/
def extract_text_from_docx (parsed : Option String) : String × Nat :=
  match parsed with
  | some text => (text, 0)
  | none => ("", 1)

/-- Model of `process_uploaded_file` (app.py lines 85-137).

Control flow of the source: a temp file with the original bytes is created;
for a `.docx` suffix the text is extracted, the original temp removed, and a
new `.txt` temp written with the extracted text (display name gains a
`.txt` marker); the temp is uploaded and polled.  On FAILED the function
shows an error and returns `None` (app.py lines 125-127) — before the
cleanup at lines 130-131; on an exception the `except` handler (lines
135-137) shows an error and returns `None`, also without cleanup; only on
READY is the temp removed before returning the handle. -/
def process_uploaded_file (f : UFile) (parsed : Option String)
    (remote : RemoteTerminal) : IngestOutcome :=
  let suffix := pyLower (pathSuffix f.name)
  let d₁ := if suffix = docx_suffix then
      let (text, e₁) := extract_text_from_docx parsed
      (tmp_txt, f.name ++ txt_suffix, text, e₁)
    else (tmp_orig, f.name, f.bytes, 0)
  match remote with
  | RemoteTerminal.raiseExc =>
    { result := none, leftover_tmps := [d₁.1], errors := d₁.2.2.2 + 1 }
  | RemoteTerminal.failed =>
    { result := none, leftover_tmps := [d₁.1], errors := d₁.2.2.2 + 1 }
  | RemoteTerminal.ready =>
    { result := some { display_name := d₁.2.1, payload := d₁.2.2.1 },
      leftover_tmps := [], errors := d₁.2.2.2 }

/-! ## Generation Invoker: `generate_content_stream` (app.py lines 139-158) -/

/-- Model of `genai.types.GenerationConfig` as used by the app. -/
structure GenerationConfig where
  temperature : ℚ
deriving DecidableEq, Repr

/-- One element of the `content_parts` list passed to `generate_content`. -/
inductive ContentPart where
  | text (s : String)
  | file (f : RemoteFile)
deriving DecidableEq, Repr

/-- The request submitted to the remote model. -/
structure GenRequest where
  model_name : String
  content_parts : List ContentPart
  config : GenerationConfig
deriving DecidableEq, Repr

/-- The request built by `generate_content_stream` (app.py lines 142-154):
the prompt followed by the file handles, with `temperature=0.7`. -/
def generate_request (model_name prompt : String) (files : List RemoteFile) : GenRequest :=
  { model_name := model_name
    content_parts := ContentPart.text prompt :: files.map ContentPart.file
    config := { temperature := 7/10 } }

/-- Model of `generate_content_stream` (app.py lines 139-158): submit the request; on
any remote error the exception is caught, an error shown and `None`
returned.  `respond` is the remote model's behaviour. -/
def generate_content_stream (respond : GenRequest → Option String)
    (model_name prompt : String) (files : List RemoteFile) : Option String :=
  respond (generate_request model_name prompt files)

/-! ## Stage Pipeline Controller (app.py lines 161-188, 216-244, 263-306,
325-371)

The Streamlit session state holds one result slot per stage; each button
handler is a transition on it.  Attachment ingestion inside a handler is
abstracted by `ing : UFile → Option RemoteFile` (the per-file result of
`process_uploaded_file`), and the remote model by
`respond : GenRequest → Option String`. -/

/-- The per-session state: the three stage result slots (app.py lines
161-166), each the empty string until its stage succeeds. -/
structure Session where
  step1_result : String
  step2_result : String
  step3_result : String
deriving DecidableEq, Repr

/-- The session with all slots empty (initial state). -/
def emptySession : Session :=
  { step1_result := "", step2_result := "", step3_result := "" }

/-- The reset button handler (app.py lines 184-188): clears all three slots. -/
def reset (_s : Session) : Session := emptySession

/-- Controller states in the sense of spec §4.5, derived from the slots (the
code has no separate state variable: a stage counts as done while its slot
is non-empty). -/
inductive CtrlState where
  | EMPTY
  | S1_DONE
  | S2_DONE
  | S3_DONE
deriving DecidableEq, Repr

/-- The derived controller state of a session. -/
def ctrlState (s : Session) : CtrlState :=
  if s.step3_result ≠ "" then CtrlState.S3_DONE
  else if s.step2_result ≠ "" then CtrlState.S2_DONE
  else if s.step1_result ≠ "" then CtrlState.S1_DONE
  else CtrlState.EMPTY

/-- Observable outcome of one stage-button press: rejected by the
prerequisite check (the blocking warning, app.py lines 266-267 / 328-329),
stopped because `configure_gemini` failed (lines 73-83), or a generation
request actually submitted to the remote model together with its result. -/
inductive StageOutcome where
  | prereqWarning
  | configFailed
  | generated (req : GenRequest) (result : Option String)
deriving DecidableEq, Repr

/-- Number of remote generation calls an outcome performed. -/
def remoteGenCalls : StageOutcome → Nat
  | StageOutcome.generated _ _ => 1
  | _ => 0

/-- The Step-1 button handler (app.py lines 216-244): configure, ingest the
attachments (failed ones are dropped, line 222), build `prompt_s1`, call the
model, and on success overwrite the `step1_result` slot. -/
def run_stage1 (s : Session) (api_key_ok : Bool) (model : String)
    (competitor_files : List UFile) (ing : UFile → Option RemoteFile)
    (competitor_text : String) (respond : GenRequest → Option String) :
    Session × StageOutcome :=
  if api_key_ok then
    let handles := competitor_files.filterMap ing
    let req := generate_request model (prompt_s1 competitor_text) handles
    match respond req with
    | some result => ({ s with step1_result := result }, StageOutcome.generated req (some result))
    | none => (s, StageOutcome.generated req none)
  else (s, StageOutcome.configFailed)

/-- The Step-2 tab and button handler (app.py lines 263-306): the whole tab
body, button included, is guarded by the `step1_result` prerequisite check
(lines 266-267); then as stage 1, writing `step2_result`. -/
def run_stage2 (s : Session) (api_key_ok : Bool) (model : String)
    (our_files : List UFile) (ing : UFile → Option RemoteFile)
    (our_text : String) (respond : GenRequest → Option String) :
    Session × StageOutcome :=
  if s.step1_result = "" then (s, StageOutcome.prereqWarning)
  else if api_key_ok then
    let handles := our_files.filterMap ing
    let req := generate_request model (prompt_s2 s.step1_result our_text) handles
    match respond req with
    | some result => ({ s with step2_result := result }, StageOutcome.generated req (some result))
    | none => (s, StageOutcome.generated req none)
  else (s, StageOutcome.configFailed)

/-- The Step-3 tab and button handler (app.py lines 325-371): guarded by the
`step2_result` prerequisite check (lines 328-329); the single optional
reference attachment selects the strict format instruction when its
ingestion succeeds (lines 343-350); then as the other stages, writing
`step3_result`. -/
def run_stage3 (s : Session) (api_key_ok : Bool) (model : String)
    (example_file : Option UFile) (ing : UFile → Option RemoteFile)
    (additional_req : String) (respond : GenRequest → Option String) :
    Session × StageOutcome :=
  if s.step2_result = "" then (s, StageOutcome.prereqWarning)
  else if api_key_ok then
    let hf := match example_file with
      | none => ([], default_format_instruction)
      | some f =>
        match ing f with
        | some g => ([g], strict_format_instruction)
        | none => ([], default_format_instruction)
    let req := generate_request model
      (prompt_s3 s.step1_result s.step2_result additional_req hf.2) hf.1
    match respond req with
    | some result => ({ s with step3_result := result }, StageOutcome.generated req (some result))
    | none => (s, StageOutcome.generated req none)
  else (s, StageOutcome.configFailed)

/-! ## Concrete sample values used by witnesses and counterexamples -/

/-- The empty string, named for use in argument position. -/
def emptyText : String := ""

/-- A sample model identifier. -/
def sampleModel : String := "gemini-3-pro"

/-- A sample generation result text. -/
def sampleResult : String := "result"

/-- A sample extracted paragraph text. -/
def sampleParagraphText : String := "hello"

/-- A sample rich-document attachment. -/
def sampleDocx : UFile := { name := "a.docx", bytes := "docxbytes" }

/-- A sample image attachment. -/
def samplePng : UFile := { name := "a.png", bytes := "pngbytes" }

/-- A sample plain-text attachment. -/
def sampleTxt : UFile := { name := "a.txt", bytes := "txtbytes" }

/-- A session in which only stage 1 has completed. -/
def sessionS1 : Session := { step1_result := "one", step2_result := "", step3_result := "" }

/-- A session in which stages 1 and 2 have completed. -/
def sessionS2 : Session := { step1_result := "one", step2_result := "two", step3_result := "" }

/-- A remote model that always answers with `sampleResult`. -/
def alwaysRespond : GenRequest → Option String := fun _ => some sampleResult

/-- An ingestion environment in which every attachment fails. -/
def noIngest : UFile → Option RemoteFile := fun _ => none

/-- A sample indented bullet line, as a character list. -/
def c10_raw : List Char := ['-', ' ', 'a']

/-- The C5 example input. -/
def c5_input : String := "# T\n\n- a\n- b\nBody **x**"

/-- The C5 expected heading text. -/
def c5_title : String := "T"

/-- The C5 expected first bullet text. -/
def c5_item_a : String := "a"

/-- The C5 expected second bullet text. -/
def c5_item_b : String := "b"

/-- The C5 expected plain paragraph text. -/
def c5_body : String := "Body x"

/-! ## Helper lemmas -/

theorem length_filterMap_sub {α β : Type} (g : α → Option β) (l : List α) :
    (l.filterMap g).length = l.length - l.countP (fun x => (g x).isNone) := by
  induction l with
  | nil => rfl
  | cons a l ih =>
    have hle := List.countP_le_length (p := fun x => (g x).isNone) (l := l)
    cases h : g a with
    | none =>
      simp [List.filterMap_cons, h, List.countP_cons, ih]
    | some b =>
      simp [List.filterMap_cons, h, List.countP_cons, ih]
      omega

theorem dropWhile_append_all {p : Char → Bool} {l₁ : List Char} (l₂ : List Char)
    (h : ∀ c ∈ l₁, p c = true) :
    List.dropWhile p (l₁ ++ l₂) = List.dropWhile p l₂ := by
  induction l₁ with
  | nil => rfl
  | cons c l ih =>
    have hc : p c = true := h c (List.mem_cons_self c l)
    simp only [List.cons_append, List.dropWhile_cons, hc, if_pos]
    exact ih fun d hd => h d (List.mem_cons_of_mem c hd)

theorem dropWhile_all_nil {p : Char → Bool} {l : List Char} (h : ∀ c ∈ l, p c = true) :
    List.dropWhile p l = [] := by
  have := dropWhile_append_all (p := p) [] h
  simpa using this

theorem dropWhile_append_cases (p : Char → Bool) (l m : List Char) :
    List.dropWhile p (l ++ m) =
      if List.dropWhile p l = [] then List.dropWhile p m
      else List.dropWhile p l ++ m := by
  induction l with
  | nil => simp
  | cons c l ih =>
    by_cases hc : p c = true
    · simpa [List.dropWhile_cons, hc] using ih
    · simp [List.dropWhile_cons, hc]

theorem stripChars_pad {pad₁ pad₂ : List Char} (l : List Char)
    (h₁ : ∀ c ∈ pad₁, c.isWhitespace = true) (h₂ : ∀ c ∈ pad₂, c.isWhitespace = true) :
    stripChars (pad₁ ++ l ++ pad₂) = stripChars l := by
  unfold stripChars
  rw [List.append_assoc, dropWhile_append_all _ h₁, dropWhile_append_cases]
  by_cases hE : List.dropWhile Char.isWhitespace l = []
  · rw [if_pos hE, hE, dropWhile_all_nil h₂]
  · rw [if_neg hE, List.reverse_append,
      dropWhile_append_all _ fun c hc => h₂ c (List.mem_reverse.mp hc)]

theorem classifyLine_pad {pad₁ pad₂ : List Char} (raw : List Char)
    (h₁ : ∀ c ∈ pad₁, c.isWhitespace = true) (h₂ : ∀ c ∈ pad₂, c.isWhitespace = true) :
    classifyLine (pad₁ ++ raw ++ pad₂) = classifyLine raw := by
  unfold classifyLine
  rw [stripChars_pad raw h₁ h₂]

theorem removePairs_insert_aux (a : Char) :
    ∀ (n : Nat) (u v : List Char), u.length ≤ n →
      removePairs a a (u ++ a :: a :: v) = removePairs a a (u ++ v) := by
  intro n
  induction n with
  | zero =>
    intro u v hu
    obtain rfl : u = [] := List.length_eq_zero.mp (Nat.le_zero.mp hu)
    simp [removePairs]
  | succ n ih =>
    intro u v hu
    rcases u with _ | ⟨c, u'⟩
    · simp [removePairs]
    rcases u' with _ | ⟨d, u₂⟩
    · by_cases hc : c = a
      · subst hc
        rcases v with _ | ⟨e, v'⟩ <;> simp [removePairs]
      · rcases v with _ | ⟨e, v'⟩ <;> simp [removePairs, hc]
    · have h₂ : u₂.length ≤ n := by
        simp only [List.length_cons] at hu; omega
      have h₁ : (d :: u₂).length ≤ n := by
        simp only [List.length_cons] at hu ⊢; omega
      by_cases hcd : c = a ∧ d = a
      · simp only [List.cons_append, removePairs, if_pos hcd]
        exact ih u₂ v h₂
      · simp only [List.cons_append, removePairs, if_neg hcd, List.append_eq]
        have h₃ := ih (d :: u₂) v h₁
        simp only [List.cons_append, List.append_eq] at h₃
        rw [h₃]

theorem removePairs_insert (a : Char) (u v : List Char) :
    removePairs a a (u ++ a :: a :: v) = removePairs a a (u ++ v) :=
  removePairs_insert_aux a u.length u v (Nat.le_refl _)

theorem run_stage1_true_outcome (s : Session) (model : String) (files : List UFile)
    (ing : UFile → Option RemoteFile) (t : String) (respond : GenRequest → Option String) :
    (run_stage1 s true model files ing t respond).2 =
      StageOutcome.generated (generate_request model (prompt_s1 t) (files.filterMap ing))
        (respond (generate_request model (prompt_s1 t) (files.filterMap ing))) := by
  simp only [run_stage1, if_pos rfl]
  cases h : respond (generate_request model (prompt_s1 t) (files.filterMap ing)) <;> simp [h]

theorem run_stage2_prereq_empty (s : Session) (ok : Bool) (model : String)
    (fs : List UFile) (ing : UFile → Option RemoteFile) (t : String)
    (respond : GenRequest → Option String) (h : s.step1_result = "") :
    run_stage2 s ok model fs ing t respond = (s, StageOutcome.prereqWarning) := by
  simp [run_stage2, h]

theorem run_stage2_true_outcome (s : Session) (model : String) (fs : List UFile)
    (ing : UFile → Option RemoteFile) (t : String) (respond : GenRequest → Option String)
    (h : ¬ s.step1_result = "") :
    (run_stage2 s true model fs ing t respond).2 =
      StageOutcome.generated
        (generate_request model (prompt_s2 s.step1_result t) (fs.filterMap ing))
        (respond (generate_request model (prompt_s2 s.step1_result t) (fs.filterMap ing))) := by
  simp only [run_stage2, if_neg h, if_pos rfl]
  cases hr : respond (generate_request model (prompt_s2 s.step1_result t) (fs.filterMap ing)) <;>
    simp [hr]

theorem run_stage2_not_warning (s : Session) (ok : Bool) (model : String)
    (fs : List UFile) (ing : UFile → Option RemoteFile) (t : String)
    (respond : GenRequest → Option String) (h : ¬ s.step1_result = "") :
    (run_stage2 s ok model fs ing t respond).2 ≠ StageOutcome.prereqWarning := by
  cases ok with
  | false => simp [run_stage2, h]
  | true => rw [run_stage2_true_outcome s model fs ing t respond h]; simp

theorem run_stage3_prereq_empty (s : Session) (ok : Bool) (model : String)
    (ex : Option UFile) (ing : UFile → Option RemoteFile) (t : String)
    (respond : GenRequest → Option String) (h : s.step2_result = "") :
    run_stage3 s ok model ex ing t respond = (s, StageOutcome.prereqWarning) := by
  simp [run_stage3, h]

theorem run_stage3_true_outcome (s : Session) (model : String) (ex : Option UFile)
    (ing : UFile → Option RemoteFile) (t : String) (respond : GenRequest → Option String)
    (h : ¬ s.step2_result = "") :
    ∃ p hs, (run_stage3 s true model ex ing t respond).2 =
      StageOutcome.generated (generate_request model p hs)
        (respond (generate_request model p hs)) := by
  rcases ex with _ | f
  · refine ⟨prompt_s3 s.step1_result s.step2_result t default_format_instruction, [], ?_⟩
    cases hr : respond (generate_request model
        (prompt_s3 s.step1_result s.step2_result t default_format_instruction) []) <;>
      simp [run_stage3, h, hr]
  · cases hf : ing f with
    | none =>
      refine ⟨prompt_s3 s.step1_result s.step2_result t default_format_instruction, [], ?_⟩
      cases hr : respond (generate_request model
          (prompt_s3 s.step1_result s.step2_result t default_format_instruction) []) <;>
        simp [run_stage3, h, hf, hr]
    | some g =>
      refine ⟨prompt_s3 s.step1_result s.step2_result t strict_format_instruction, [g], ?_⟩
      cases hr : respond (generate_request model
          (prompt_s3 s.step1_result s.step2_result t strict_format_instruction) [g]) <;>
        simp [run_stage3, h, hf, hr]

theorem run_stage3_not_warning (s : Session) (ok : Bool) (model : String)
    (ex : Option UFile) (ing : UFile → Option RemoteFile) (t : String)
    (respond : GenRequest → Option String) (h : ¬ s.step2_result = "") :
    (run_stage3 s ok model ex ing t respond).2 ≠ StageOutcome.prereqWarning := by
  cases ok with
  | false => simp [run_stage3, h]
  | true =>
    obtain ⟨p, hs, hreq⟩ := run_stage3_true_outcome s model ex ing t respond h
    rw [hreq]
    simp

theorem run_stage1_generated_temp (s : Session) (ok : Bool) (model : String)
    (files : List UFile) (ing : UFile → Option RemoteFile) (t : String)
    (respond : GenRequest → Option String) (req : GenRequest) (res : Option String)
    (h : (run_stage1 s ok model files ing t respond).2 = StageOutcome.generated req res) :
    req.config.temperature = 7/10 := by
  cases ok with
  | false => simp [run_stage1] at h
  | true =>
    rw [run_stage1_true_outcome s model files ing t respond] at h
    simp only [StageOutcome.generated.injEq] at h
    rw [← h.1]
    rfl

theorem run_stage2_generated_temp (s : Session) (ok : Bool) (model : String)
    (fs : List UFile) (ing : UFile → Option RemoteFile) (t : String)
    (respond : GenRequest → Option String) (req : GenRequest) (res : Option String)
    (h : (run_stage2 s ok model fs ing t respond).2 = StageOutcome.generated req res) :
    req.config.temperature = 7/10 := by
  by_cases h₁ : s.step1_result = ""
  · rw [run_stage2_prereq_empty s ok model fs ing t respond h₁] at h
    simp at h
  · cases ok with
    | false => simp [run_stage2, h₁] at h
    | true =>
      rw [run_stage2_true_outcome s model fs ing t respond h₁] at h
      simp only [StageOutcome.generated.injEq] at h
      rw [← h.1]
      rfl

theorem run_stage3_generated_temp (s : Session) (ok : Bool) (model : String)
    (ex : Option UFile) (ing : UFile → Option RemoteFile) (t : String)
    (respond : GenRequest → Option String) (req : GenRequest) (res : Option String)
    (h : (run_stage3 s ok model ex ing t respond).2 = StageOutcome.generated req res) :
    req.config.temperature = 7/10 := by
  by_cases h₂ : s.step2_result = ""
  · rw [run_stage3_prereq_empty s ok model ex ing t respond h₂] at h
    simp at h
  · cases ok with
    | false => simp [run_stage3, h₂] at h
    | true =>
      obtain ⟨p, hs, hreq⟩ := run_stage3_true_outcome s model ex ing t respond h₂
      rw [hreq] at h
      simp only [StageOutcome.generated.injEq] at h
      rw [← h.1]
      rfl

/-! ## Claim theorems -/

/-- C1: for every stage N in {2,3} and every value of the prior stage slots,
the composed instruction text for stage N contains the stage-1 result
verbatim as a contiguous substring, and for N = 3 it additionally contains
the stage-2 result verbatim as a contiguous substring. -/
theorem claim_C1_verbatim_embedding (stage1 stage2 our_text req fmt : String) :
    (∃ p q, prompt_s2 stage1 our_text = p ++ stage1 ++ q) ∧
    (∃ p q, prompt_s3 stage1 stage2 req fmt = p ++ stage1 ++ q) ∧
    (∃ p q, prompt_s3 stage1 stage2 req fmt = p ++ stage2 ++ q) := by
  refine ⟨⟨s2_pre, s2_mid ++ our_text ++ s2_post, ?_⟩,
    ⟨s3_pre, s3_mid_a ++ stage2 ++ s3_mid_b ++ req ++ s3_mid_c ++ fmt ++ s3_post, ?_⟩,
    ⟨s3_pre ++ stage1 ++ s3_mid_a, s3_mid_b ++ req ++ s3_mid_c ++ fmt ++ s3_post, ?_⟩⟩ <;>
    simp [prompt_s2, prompt_s3, String.append_assoc]

/-- C5: the exporter applied to the example input `"# T\n\n- a\n- b\nBody **x**"`
produces exactly one level-1 heading `"T"`, two bulleted paragraphs `"a"` and
`"b"`, and one plain paragraph `"Body x"` with the bold markers stripped,
with no paragraph for the blank line. -/
theorem claim_C5_export_example :
    create_docx_from_markdown c5_input =
      [DocxItem.heading 1 c5_title, DocxItem.bullet c5_item_a, DocxItem.bullet c5_item_b,
        DocxItem.par c5_body] := by
  decide

/-- C6: from every prior controller state, `reset` empties all three stage
slots and returns the controller to the EMPTY state. -/
theorem claim_C6_reset (s : Session) :
    reset s = emptySession ∧ ctrlState (reset s) = CtrlState.EMPTY :=
  ⟨rfl, rfl⟩

/-- C7: re-running stage 1 — whether it succeeds, the remote call fails, or
configuration fails — leaves the stage-2 and stage-3 slots unchanged; only
the stage-1 slot can be overwritten. -/
theorem claim_C7_stage1_frame (s : Session) (ok : Bool) (model : String)
    (files : List UFile) (ing : UFile → Option RemoteFile) (t : String)
    (respond : GenRequest → Option String) :
    (run_stage1 s ok model files ing t respond).1.step2_result = s.step2_result ∧
    (run_stage1 s ok model files ing t respond).1.step3_result = s.step3_result ∧
    ((run_stage1 s ok model files ing t respond).1 = s ∨
      ∃ r, (run_stage1 s ok model files ing t respond).1 = { s with step1_result := r }) := by
  cases ok with
  | false => simp [run_stage1]
  | true =>
    cases h : respond (generate_request model (prompt_s1 t) (files.filterMap ing)) with
    | none => simp [run_stage1, h]
    | some r => refine ⟨by simp [run_stage1, h], by simp [run_stage1, h], Or.inr ⟨r, by simp [run_stage1, h]⟩⟩

/-- C2: a stage-2 run is rejected with the blocking warning, performing no
remote generation call, exactly when the stage-1 slot is empty; a stage-3
run is rejected the same way exactly when the stage-2 slot is empty; with
the prerequisite slot non-empty (and the credential configured) the run
proceeds to a generation request. -/
theorem claim_C2_prereq_gating (s : Session) (ok : Bool) (model : String)
    (fs₂ : List UFile) (ing : UFile → Option RemoteFile) (t₂ : String)
    (ex₃ : Option UFile) (t₃ : String) (respond : GenRequest → Option String) :
    ((run_stage2 s ok model fs₂ ing t₂ respond).2 = StageOutcome.prereqWarning ↔
      s.step1_result = "") ∧
    ((run_stage3 s ok model ex₃ ing t₃ respond).2 = StageOutcome.prereqWarning ↔
      s.step2_result = "") ∧
    (s.step1_result = "" → remoteGenCalls (run_stage2 s ok model fs₂ ing t₂ respond).2 = 0) ∧
    (s.step2_result = "" → remoteGenCalls (run_stage3 s ok model ex₃ ing t₃ respond).2 = 0) ∧
    (s.step1_result ≠ "" → ok = true →
      ∃ req res, (run_stage2 s ok model fs₂ ing t₂ respond).2 =
        StageOutcome.generated req res) ∧
    (s.step2_result ≠ "" → ok = true →
      ∃ req res, (run_stage3 s ok model ex₃ ing t₃ respond).2 =
        StageOutcome.generated req res) := by
  refine ⟨⟨fun hw => ?_, fun he => ?_⟩, ⟨fun hw => ?_, fun he => ?_⟩, fun he => ?_,
    fun he => ?_, fun hne hok => ?_, fun hne hok => ?_⟩
  · by_contra hne
    exact run_stage2_not_warning s ok model fs₂ ing t₂ respond hne hw
  · rw [run_stage2_prereq_empty s ok model fs₂ ing t₂ respond he]
  · by_contra hne
    exact run_stage3_not_warning s ok model ex₃ ing t₃ respond hne hw
  · rw [run_stage3_prereq_empty s ok model ex₃ ing t₃ respond he]
  · rw [run_stage2_prereq_empty s ok model fs₂ ing t₂ respond he]
    rfl
  · rw [run_stage3_prereq_empty s ok model ex₃ ing t₃ respond he]
    rfl
  · subst hok
    exact ⟨_, _, run_stage2_true_outcome s model fs₂ ing t₂ respond hne⟩
  · subst hok
    obtain ⟨p, hs, hreq⟩ := run_stage3_true_outcome s model ex₃ ing t₃ respond hne
    exact ⟨_, _, hreq⟩

/-- C2 witness: concrete instances — with an empty stage-1 slot a stage-2 run
warns and makes no generation call; with stage 1 done, a stage-2 run issues a
generation request; with an empty stage-2 slot a stage-3 run warns. -/
theorem claim_C2_prereq_gating_witness :
    (run_stage2 emptySession true sampleModel [] noIngest emptyText alwaysRespond).2 =
      StageOutcome.prereqWarning ∧
    remoteGenCalls
      (run_stage2 emptySession true sampleModel [] noIngest emptyText alwaysRespond).2 = 0 ∧
    (run_stage3 sessionS1 true sampleModel none noIngest emptyText alwaysRespond).2 =
      StageOutcome.prereqWarning ∧
    (∃ req res, (run_stage2 sessionS1 true sampleModel [] noIngest emptyText alwaysRespond).2 =
      StageOutcome.generated req res) :=
  ⟨(claim_C2_prereq_gating emptySession true sampleModel [] noIngest emptyText none emptyText
      alwaysRespond).1.mpr rfl,
    (claim_C2_prereq_gating emptySession true sampleModel [] noIngest emptyText none emptyText
      alwaysRespond).2.2.1 rfl,
    (claim_C2_prereq_gating sessionS1 true sampleModel [] noIngest emptyText none emptyText
      alwaysRespond).2.1.mpr rfl,
    (claim_C2_prereq_gating sessionS1 true sampleModel [] noIngest emptyText none emptyText
      alwaysRespond).2.2.2.2.1 (by decide) rfl⟩

/-- C3 counterexample: one attachment is submitted, its ingestion fails, and
no free text is supplied — the claim requires the stage run to be aborted
with no generation call, but the code still performs the generation call
(with an empty handle list). -/
theorem claim_C3_no_abort_counterexample :
    ¬ remoteGenCalls
        (run_stage1 emptySession true sampleModel [samplePng] noIngest emptyText
          alwaysRespond).2 = 0 := by
  rw [run_stage1_true_outcome]
  decide

/-- C3 amended: for every stage-1 run with N submitted attachments of which
K fail ingestion, the generation call receives exactly the N−K successfully
ingested handles and no exception propagates past ingestion; the run is
never aborted on account of ingestion failures — exactly one generation
call is made (with the reduced, possibly empty, handle set) even when all
attachments fail and no free text was supplied. -/
theorem claim_C3_ingestion_isolation (s : Session) (model : String) (files : List UFile)
    (ing : UFile → Option RemoteFile) (t : String) (respond : GenRequest → Option String) :
    (run_stage1 s true model files ing t respond).2 =
      StageOutcome.generated (generate_request model (prompt_s1 t) (files.filterMap ing))
        (respond (generate_request model (prompt_s1 t) (files.filterMap ing))) ∧
    (files.filterMap ing).length = files.length - files.countP (fun f => (ing f).isNone) ∧
    remoteGenCalls (run_stage1 s true model files ing t respond).2 = 1 := by
  refine ⟨run_stage1_true_outcome s model files ing t respond, length_filterMap_sub ing files, ?_⟩
  rw [run_stage1_true_outcome s model files ing t respond]
  rfl

/-- C4: evaluation of the ingestion paths at concrete inputs.  On the FAILED
path (for both a plain and a docx attachment) and on the exception path the
returned outcome still lists a live local temp file, so the temp file is
leaked there; only the READY path removes it.  This contradicts the claim
that every exit path removes the temp file — a slip in the code, whose
cleanup block (app.py lines 129-131) is unreachable from those two early
returns. -/
theorem claim_C4_tempfile_leak :
    (process_uploaded_file sampleTxt (some sampleParagraphText) RemoteTerminal.failed).leftover_tmps
      = [tmp_orig] ∧
    (process_uploaded_file sampleDocx (some sampleParagraphText) RemoteTerminal.failed).leftover_tmps
      = [tmp_txt] ∧
    (process_uploaded_file sampleTxt (some sampleParagraphText) RemoteTerminal.raiseExc).leftover_tmps
      = [tmp_orig] ∧
    (process_uploaded_file sampleTxt (some sampleParagraphText) RemoteTerminal.ready).leftover_tmps
      = [] := by
  decide

/-- C8: every generation request — for every stage and every input — is
submitted with the single fixed temperature 0.7 (= 7/10), a value strictly
between 0 and the neutral setting 1, i.e. a conservative,
deterministic-leaning (low-moderate) choice. -/
theorem claim_C8_fixed_temperature (model prompt : String) (files : List RemoteFile)
    (s : Session) (ok : Bool) (ufs : List UFile) (ing : UFile → Option RemoteFile)
    (t : String) (ex : Option UFile) (respond : GenRequest → Option String) :
    (generate_request model prompt files).config.temperature = 7/10 ∧
    0 < (generate_request model prompt files).config.temperature ∧
    (generate_request model prompt files).config.temperature < 1 ∧
    (∀ req res, (run_stage1 s ok model ufs ing t respond).2 = StageOutcome.generated req res →
      req.config.temperature = 7/10) ∧
    (∀ req res, (run_stage2 s ok model ufs ing t respond).2 = StageOutcome.generated req res →
      req.config.temperature = 7/10) ∧
    (∀ req res, (run_stage3 s ok model ex ing t respond).2 = StageOutcome.generated req res →
      req.config.temperature = 7/10) :=
  ⟨rfl, by norm_num [generate_request], by norm_num [generate_request],
    fun req res h => run_stage1_generated_temp s ok model ufs ing t respond req res h,
    fun req res h => run_stage2_generated_temp s ok model ufs ing t respond req res h,
    fun req res h => run_stage3_generated_temp s ok model ex ing t respond req res h⟩

/-- C8 witness: the request issued by a concrete stage-1 run carries
temperature 7/10. -/
theorem claim_C8_fixed_temperature_witness :
    (generate_request sampleModel (prompt_s1 emptyText) []).config.temperature = 7/10 :=
  (claim_C8_fixed_temperature sampleModel (prompt_s1 emptyText) [] emptySession true []
      noIngest emptyText none alwaysRespond).2.2.2.1
    (generate_request sampleModel (prompt_s1 emptyText) []) (some sampleResult) rfl

/-- C9 counterexample: a docx attachment whose text extraction fails (the
docx library raises) is NOT reported as a failed ingestion — when the remote
upload succeeds, `process_uploaded_file` returns a handle (for an uploaded
empty text payload) rather than `None`, contradicting the claim that the
failure is reported as a Failure result for that attachment. -/
theorem claim_C9_extraction_failure_counterexample :
    (process_uploaded_file sampleDocx none RemoteTerminal.ready).result ≠ none ∧
    (process_uploaded_file sampleDocx none RemoteTerminal.ready).result =
      some { display_name := sampleDocx.name ++ txt_suffix, payload := "" } := by
  decide

/-- C9 amended: for a docx attachment whose text extraction fails, an error
message is surfaced but ingestion proceeds with an empty text payload; when
remote processing then succeeds, a READY handle (a success, carrying the
derived `.txt` display name and empty content) is returned for the
attachment. -/
theorem claim_C9_extraction_failure_amended (f : UFile)
    (h : pyLower (pathSuffix f.name) = docx_suffix) :
    (process_uploaded_file f none RemoteTerminal.ready).result =
      some { display_name := f.name ++ txt_suffix, payload := "" } ∧
    0 < (process_uploaded_file f none RemoteTerminal.ready).errors := by
  simp [process_uploaded_file, h, extract_text_from_docx]

/-- C9 amended witness: the amended statement at the concrete docx sample. -/
theorem claim_C9_extraction_failure_amended_witness :
    (process_uploaded_file sampleDocx none RemoteTerminal.ready).result =
      some { display_name := sampleDocx.name ++ txt_suffix, payload := "" } ∧
    0 < (process_uploaded_file sampleDocx none RemoteTerminal.ready).errors :=
  claim_C9_extraction_failure_amended sampleDocx (by decide)

/-- C10: every input line of the exporter is stripped of leading and
trailing whitespace before classification, so a padded (e.g. indented or
nested-bullet) line is classified exactly as if it started at column 0; and
the plain-paragraph cleanup removes every occurrence of the two-character
sequences `**` and `__`, even when unpaired or inside a word — inserting
such a sequence anywhere in a line is invisible to the corresponding
replacement pass. -/
theorem claim_C10_strip_and_inline_markers :
    (∀ pad₁ pad₂ raw, (∀ c ∈ pad₁, c.isWhitespace = true) →
      (∀ c ∈ pad₂, c.isWhitespace = true) →
      classifyLine (pad₁ ++ raw ++ pad₂) = classifyLine raw) ∧
    (∀ u v, removePairs '*' '*' (u ++ '*' :: '*' :: v) = removePairs '*' '*' (u ++ v)) ∧
    (∀ u v, removePairs '_' '_' (u ++ '_' :: '_' :: v) = removePairs '_' '_' (u ++ v)) ∧
    (∀ u v, clean_inline (u ++ '*' :: '*' :: v) = clean_inline (u ++ v)) := by
  refine ⟨fun pad₁ pad₂ raw h₁ h₂ => classifyLine_pad raw h₁ h₂,
    fun u v => removePairs_insert _ u v,
    fun u v => removePairs_insert _ u v,
    fun u v => ?_⟩
  unfold clean_inline
  rw [removePairs_insert]

/-- C10 witness: an indented bullet line is classified exactly like the
unindented one, namely as the bullet `"a"`. -/
theorem claim_C10_strip_and_inline_markers_witness :
    classifyLine ([' ', ' '] ++ c10_raw ++ []) = classifyLine c10_raw ∧
    classifyLine ([' ', ' '] ++ c10_raw ++ []) = some (DocxItem.bullet c5_item_a) :=
  ⟨claim_C10_strip_and_inline_markers.1 [' ', ' '] [] c10_raw (by decide) (by decide),
    by decide⟩

end Adsm
